import Mathlib

/-!
Verification development for `src/Epub-AI/generate_icons.py`, a script that
generates four placeholder PWA icons (standard and maskable variants at sizes
192 and 512), either as PNG raster images via PIL or, when PIL is missing,
as SVG markup files.

Modelling conventions.  Python integers are `Int`.  Python `int(x * c)` with a
decimal literal `c = d / 10^k` truncates the product toward zero; it is
modelled by exact rational arithmetic as `(x * d).tdiv (10^k)` (truncated
division).  Python floor division `//` is `Int.fdiv`.  The PIL image is
modelled as its mode, its dimensions and the list of drawing operations
applied to it; the SVG markup is modelled by the attribute values that the
source interpolates into its fixed f-string template.
-/

namespace GenerateIcons

/-- RGBA colour tuple, as passed to PIL drawing calls. -/
abbrev Color := Int × Int × Int × Int

/-- Layout quantities computed from `size` and `is_maskable`: lines 27-45 of
`create_book_icon` and lines 104-108 of `create_svg_icon` both compute this
record. -/
structure Geometry where
  padding : Int
  book_width : Int
  book_height : Int
  book_x : Int
  book_y : Int
  deriving Repr, DecidableEq

/-- Geometry as computed inside `create_book_icon` (raster path):
`padding = int(size*0.2)` if maskable else `int(size*0.1)`;
`book_width = size - padding*2`; `book_height = int(book_width*1.3)`;
`book_x = padding`; `book_y = (size - book_height) // 2`. -/
def book_geometry (size : Int) (is_maskable : Bool) : Geometry :=
  let padding := if is_maskable then (size * 2).tdiv 10 else size.tdiv 10
  let book_width := size - padding * 2
  let book_height := (book_width * 13).tdiv 10
  { padding := padding
    book_width := book_width
    book_height := book_height
    book_x := padding
    book_y := (size - book_height).fdiv 2 }

/-- Geometry as computed inside `create_svg_icon` (vector fallback path):
`padding = int(size*0.2) if is_maskable else int(size*0.1)`;
`book_width = size - (padding*2)`; `book_height = int(book_width*1.3)`;
`book_x = padding`; `book_y = (size - book_height) // 2`. -/
def svg_geometry (size : Int) (is_maskable : Bool) : Geometry :=
  let padding := if is_maskable then (size * 2).tdiv 10 else size.tdiv 10
  let book_width := size - padding * 2
  let book_height := (book_width * 13).tdiv 10
  { padding := padding
    book_width := book_width
    book_height := book_height
    book_x := padding
    book_y := (size - book_height).fdiv 2 }

/-- One PIL `ImageDraw` call recorded by `create_book_icon`. -/
inductive DrawOp where
  | ellipse (xy : List Int) (fill : Color)
  | rounded_rectangle (xy : List Int) (radius : Int) (fill : Color)
  | rectangle (xy : List Int) (fill : Color)
  | line (xy : List Int) (fill : Color) (width : Int)
  deriving Repr, DecidableEq

/-- A PIL image as produced by `Image.new(mode, (w, h), background)` followed
by a sequence of draw calls. -/
structure PILImage where
  mode : String
  width : Int
  height : Int
  background : Color
  ops : List DrawOp
  deriving Repr, DecidableEq

/-- Local variable `page_offset = int(book_width * 0.93)` of
`create_book_icon` (line 61). -/
def page_offset (size : Int) (is_maskable : Bool) : Int :=
  ((book_geometry size is_maskable).book_width * 93).tdiv 100

/-- Local variable `line_spacing = int(book_height * 0.1)` of
`create_book_icon` (line 62). -/
def line_spacing (size : Int) (is_maskable : Bool) : Int :=
  (book_geometry size is_maskable).book_height.tdiv 10

/-- The page-line loop of `create_book_icon` (lines 63-71): for `i` in
`range(3)`, `y_pos = book_y + (i+2)*line_spacing`, and the line is drawn only
when `y_pos < book_y + book_height - line_spacing`. -/
def page_lines (size : Int) (is_maskable : Bool) : List DrawOp :=
  (List.range 3).filterMap (fun (i : Nat) =>
    let y_pos := (book_geometry size is_maskable).book_y +
      ((i : Int) + 2) * line_spacing size is_maskable
    if y_pos < (book_geometry size is_maskable).book_y +
        (book_geometry size is_maskable).book_height - line_spacing size is_maskable then
      some (DrawOp.line
        [(book_geometry size is_maskable).book_x + page_offset size is_maskable, y_pos,
          (book_geometry size is_maskable).book_x + (book_geometry size is_maskable).book_width,
          y_pos]
        (200, 200, 200, 255) 2)
    else none)

/-- The raster-path icon constructor `create_book_icon(size, is_maskable)`:
a transparent RGBA image of dimensions `size` by `size`, with a circular
(maskable) or rounded-square background, a white book cover, a grey spine and
up to three page lines. -/
def create_book_icon (size : Int) (is_maskable : Bool) : PILImage :=
  let bg_color : Color := (76, 175, 80, 255)
  let book_color : Color := (255, 255, 255, 255)
  let g := book_geometry size is_maskable
  let backgroundOp :=
    if is_maskable then DrawOp.ellipse [0, 0, size, size] bg_color
    else DrawOp.rounded_rectangle [0, 0, size, size] (size.tdiv 10) bg_color
  let cover := DrawOp.rounded_rectangle
    [g.book_x, g.book_y, g.book_x + g.book_width, g.book_y + g.book_height]
    ((size * 3).tdiv 100) book_color
  let spine_width := (g.book_width * 8).tdiv 100
  let spine := DrawOp.rectangle
    [g.book_x, g.book_y, g.book_x + spine_width, g.book_y + g.book_height]
    (230, 230, 230, 255)
  { mode := "RGBA"
    width := size
    height := size
    background := (0, 0, 0, 0)
    ops := backgroundOp :: cover :: spine :: page_lines size is_maskable }

/-- Background element of the SVG markup: a circle for maskable icons, a
rounded rect otherwise. -/
inductive SvgBg where
  | circle (cx cy r : Int)
  | rect (w h rx : Int)
  deriving Repr, DecidableEq

/-- One SVG `line` element of the pages group. -/
structure SvgLine where
  x1 : Int
  y1 : Int
  x2 : Int
  y2 : Int
  deriving Repr, DecidableEq

/-- The SVG markup emitted by `create_svg_icon`, modelled by the attribute
values interpolated into its f-string template: root `width`, `height` and
`viewBox="0 0 size size"`, the background, the book rect, the spine rect and
the three page lines. -/
structure SvgMarkup where
  width : Int
  height : Int
  viewBox : Int × Int × Int × Int
  background : SvgBg
  bookX : Int
  bookY : Int
  bookW : Int
  bookH : Int
  bookRx : Int
  spineX : Int
  spineY : Int
  spineW : Int
  spineH : Int
  pageLines : List SvgLine
  deriving Repr, DecidableEq

/-- The fallback-path icon constructor `create_svg_icon(size, is_maskable)`
(lines 102-132). -/
def create_svg_icon (size : Int) (is_maskable : Bool) : SvgMarkup :=
  let g := svg_geometry size is_maskable
  { width := size
    height := size
    viewBox := (0, 0, size, size)
    background :=
      if is_maskable then SvgBg.circle (size.fdiv 2) (size.fdiv 2) (size.fdiv 2)
      else SvgBg.rect size size (size.fdiv 10)
    bookX := g.book_x
    bookY := g.book_y
    bookW := g.book_width
    bookH := g.book_height
    bookRx := size.fdiv 33
    spineX := g.book_x
    spineY := g.book_y
    spineW := (g.book_width * 8).tdiv 100
    spineH := g.book_height
    pageLines :=
      [ { x1 := g.book_x + (g.book_width * 93).tdiv 100
          y1 := g.book_y + (g.book_height * 3).tdiv 10
          x2 := g.book_x + g.book_width
          y2 := g.book_y + (g.book_height * 3).tdiv 10 }
      , { x1 := g.book_x + (g.book_width * 93).tdiv 100
          y1 := g.book_y + g.book_height.tdiv 2
          x2 := g.book_x + g.book_width
          y2 := g.book_y + g.book_height.tdiv 2 }
      , { x1 := g.book_x + (g.book_width * 93).tdiv 100
          y1 := g.book_y + (g.book_height * 7).tdiv 10
          x2 := g.book_x + g.book_width
          y2 := g.book_y + (g.book_height * 7).tdiv 10 } ] }

/-- A Python exception at the top level of the script: either an
`ImportError` (the only kind the script catches) or any other exception. -/
inductive PyError where
  | importError
  | other (msg : String)
  deriving Repr, DecidableEq

/-- The file contents written on each path: a PNG-encoded raster image or an
SVG markup file. -/
inductive FileContent where
  | png (img : PILImage)
  | svgMarkup (m : SvgMarkup)
  deriving Repr, DecidableEq

/-- What the script produces on a complete run: the raster path or the
vector fallback path, never both. -/
inductive ScriptOutput where
  | raster (files : List (String × PILImage))
  | vector (files : List (String × SvgMarkup))
  deriving Repr, DecidableEq

/-- The four files written by the raster path (lines 79-94), in program
order. -/
def raster_files : List (String × PILImage) :=
  [ ("assets/icons/icon-192x192.png", create_book_icon 192 false)
  , ("assets/icons/icon-512x512.png", create_book_icon 512 false)
  , ("assets/icons/icon-maskable-192x192.png", create_book_icon 192 true)
  , ("assets/icons/icon-maskable-512x512.png", create_book_icon 512 true) ]

/-- The four files written by the fallback path (lines 135-149), in program
order. -/
def svg_files : List (String × SvgMarkup) :=
  [ ("assets/icons/icon-192x192.svg", create_svg_icon 192 false)
  , ("assets/icons/icon-512x512.svg", create_svg_icon 512 false)
  , ("assets/icons/icon-maskable-192x192.svg", create_svg_icon 192 true)
  , ("assets/icons/icon-maskable-512x512.svg", create_svg_icon 512 true) ]

/-- File names produced by a script output. -/
def outputNames : ScriptOutput → List String
  | ScriptOutput.raster fs => fs.map Prod.fst
  | ScriptOutput.vector fs => fs.map Prod.fst

/-- Model of `os.makedirs(d, exist_ok=True)` over a directory set: creates
the directory when absent and, because `exist_ok=True`, raises nothing when
it is already present. -/
def makedirs_exist_ok (dirs : List String) (d : String) :
    Except PyError (List String) :=
  Except.ok (if dirs.contains d then dirs else d :: dirs)

/-- Top-level control flow of the script.  First `os.makedirs('assets/icons',
exist_ok=True)` runs (line 10, before the try block and hence on both paths).
Then the try block runs; `bodyFault` is the exception it raises, if any
(`importError` when PIL is absent).  The `except ImportError` clause catches
exactly `importError` and runs the SVG fallback; any other exception
propagates uncaught. -/
def run_script (dirs : List String) (bodyFault : Option PyError) :
    Except PyError (List String × ScriptOutput) :=
  match makedirs_exist_ok dirs "assets/icons" with
  | Except.error e => Except.error e
  | Except.ok dirs2 =>
    match bodyFault with
    | none => Except.ok (dirs2, ScriptOutput.raster raster_files)
    | some PyError.importError => Except.ok (dirs2, ScriptOutput.vector svg_files)
    | some (PyError.other msg) => Except.error (PyError.other msg)

/-- C1: for every positive size S and either value of the maskable flag, the
raster path creates an RGBA image of width S and height S, and the
vector-fallback path emits markup whose width, height and viewBox are S by
S. -/
theorem c1_output_dimensions (S : Int) (m : Bool) (_hS : 0 < S) :
    (create_book_icon S m).mode = "RGBA" ∧
    (create_book_icon S m).width = S ∧
    (create_book_icon S m).height = S ∧
    (create_svg_icon S m).width = S ∧
    (create_svg_icon S m).height = S ∧
    (create_svg_icon S m).viewBox = (0, 0, S, S) :=
  ⟨rfl, rfl, rfl, rfl, rfl, rfl⟩

/-- Witness for C1 at S = 192, maskable. -/
theorem c1_output_dimensions_witness :
    (create_book_icon 192 true).mode = "RGBA" ∧
    (create_book_icon 192 true).width = 192 ∧
    (create_book_icon 192 true).height = 192 ∧
    (create_svg_icon 192 true).width = 192 ∧
    (create_svg_icon 192 true).height = 192 ∧
    (create_svg_icon 192 true).viewBox = (0, 0, 192, 192) :=
  c1_output_dimensions 192 true (by decide)

/-- C2: for any positive size S the padding and derived book dimensions are
deterministic functions of S and the maskable flag alone: padding is
int(S*0.2) when maskable and int(S*0.1) otherwise, book_width = S -
2*padding, book_height = int(book_width*1.3), book_x = padding and book_y =
(S - book_height) // 2; two invocations with the same arguments agree. -/
theorem c2_geometry_formulas (S : Int) (m : Bool) (_hS : 0 < S) :
    (book_geometry S m).padding = (if m then (S * 2).tdiv 10 else S.tdiv 10) ∧
    (book_geometry S m).book_width = S - 2 * (book_geometry S m).padding ∧
    (book_geometry S m).book_height = ((book_geometry S m).book_width * 13).tdiv 10 ∧
    (book_geometry S m).book_x = (book_geometry S m).padding ∧
    (book_geometry S m).book_y = (S - (book_geometry S m).book_height).fdiv 2 ∧
    book_geometry S m = book_geometry S m ∧
    create_book_icon S m = create_book_icon S m :=
  ⟨rfl, by simp only [book_geometry]; ring, rfl, rfl, rfl, rfl, rfl⟩

/-- Witness for C2 at S = 512, non-maskable. -/
theorem c2_geometry_formulas_witness :
    (book_geometry 512 false).padding = (if false then ((512:Int) * 2).tdiv 10 else (512:Int).tdiv 10) ∧
    (book_geometry 512 false).book_width = 512 - 2 * (book_geometry 512 false).padding ∧
    (book_geometry 512 false).book_height = ((book_geometry 512 false).book_width * 13).tdiv 10 ∧
    (book_geometry 512 false).book_x = (book_geometry 512 false).padding ∧
    (book_geometry 512 false).book_y = ((512:Int) - (book_geometry 512 false).book_height).fdiv 2 ∧
    book_geometry 512 false = book_geometry 512 false ∧
    create_book_icon 512 false = create_book_icon 512 false :=
  c2_geometry_formulas 512 false (by decide)

/-- C3: the importError fault is the only one handled: it selects the SVG
fallback (whose four files all carry the .svg extension), no fault selects
the raster path, any other fault propagates as an error, and each fault
value yields exactly one of the two output constructors. -/
theorem c3_error_handling (dirs : List String) (msg : String) :
    run_script dirs (some PyError.importError) =
      Except.ok
        ((if dirs.contains "assets/icons" then dirs else "assets/icons" :: dirs),
          ScriptOutput.vector svg_files) ∧
    run_script dirs none =
      Except.ok
        ((if dirs.contains "assets/icons" then dirs else "assets/icons" :: dirs),
          ScriptOutput.raster raster_files) ∧
    run_script dirs (some (PyError.other msg)) = Except.error (PyError.other msg) ∧
    svg_files.map Prod.fst =
      ["assets/icons/icon-192x192", "assets/icons/icon-512x512",
        "assets/icons/icon-maskable-192x192",
        "assets/icons/icon-maskable-512x512"].map (fun n => n ++ ".svg") :=
  ⟨rfl, rfl, rfl, rfl⟩

/-- C8: the raster path and the vector-fallback path compute identical
layout geometry for every size and flag value. -/
theorem c8_geometry_agreement (S : Int) (m : Bool) :
    book_geometry S m = svg_geometry S m :=
  rfl

/-- C9: for the non-maskable variant at the generated sizes, the book
rectangle overflows the S-by-S canvas: book_height is 200 > 192 and
533 > 512, book_y is negative (-4 and -11), and the book extends above
(book_y < 0) and below (book_y + book_height > S) the icon bounds. -/
theorem c9_book_overflow :
    (book_geometry 192 false).book_height = 200 ∧
    192 < (book_geometry 192 false).book_height ∧
    (book_geometry 192 false).book_y = -4 ∧
    (book_geometry 192 false).book_y < 0 ∧
    192 < (book_geometry 192 false).book_y + (book_geometry 192 false).book_height ∧
    (book_geometry 512 false).book_height = 533 ∧
    512 < (book_geometry 512 false).book_height ∧
    (book_geometry 512 false).book_y = -11 ∧
    (book_geometry 512 false).book_y < 0 ∧
    512 < (book_geometry 512 false).book_y + (book_geometry 512 false).book_height := by
  decide

/-- C4: on any complete run the script writes exactly four icon files, at
sizes 192 and 512 in standard and maskable variants, under assets/icons with
the fixed names, carrying extension .png on the raster path and .svg on the
fallback path, and nothing else. -/
theorem c4_fixed_outputs (dirs : List String) (fault : Option PyError)
    (d : List String) (out : ScriptOutput)
    (h : run_script dirs fault = Except.ok (d, out)) :
    (out = ScriptOutput.raster raster_files ∧
      outputNames out =
        ["assets/icons/icon-192x192.png", "assets/icons/icon-512x512.png",
          "assets/icons/icon-maskable-192x192.png",
          "assets/icons/icon-maskable-512x512.png"]) ∨
    (out = ScriptOutput.vector svg_files ∧
      outputNames out =
        ["assets/icons/icon-192x192.svg", "assets/icons/icon-512x512.svg",
          "assets/icons/icon-maskable-192x192.svg",
          "assets/icons/icon-maskable-512x512.svg"]) := by
  rcases fault with _ | f
  · simp only [run_script, makedirs_exist_ok, Except.ok.injEq, Prod.mk.injEq] at h
    obtain ⟨-, hout⟩ := h
    subst hout
    exact Or.inl ⟨rfl, rfl⟩
  · rcases f with _ | msg
    · simp only [run_script, makedirs_exist_ok, Except.ok.injEq, Prod.mk.injEq] at h
      obtain ⟨-, hout⟩ := h
      subst hout
      exact Or.inr ⟨rfl, rfl⟩
    · simp only [run_script, makedirs_exist_ok] at h
      exact Except.noConfusion h

/-- Witness for C4: a complete run with no fault on an empty filesystem. -/
theorem c4_fixed_outputs_witness :
    (ScriptOutput.raster raster_files = ScriptOutput.raster raster_files ∧
      outputNames (ScriptOutput.raster raster_files) =
        ["assets/icons/icon-192x192.png", "assets/icons/icon-512x512.png",
          "assets/icons/icon-maskable-192x192.png",
          "assets/icons/icon-maskable-512x512.png"]) ∨
    (ScriptOutput.raster raster_files = ScriptOutput.vector svg_files ∧
      outputNames (ScriptOutput.raster raster_files) =
        ["assets/icons/icon-192x192.svg", "assets/icons/icon-512x512.svg",
          "assets/icons/icon-maskable-192x192.svg",
          "assets/icons/icon-maskable-512x512.svg"]) :=
  c4_fixed_outputs [] none ["assets/icons"] (ScriptOutput.raster raster_files) rfl

/-- Directory creation with exist_ok leaves the requested directory present,
whether or not it already existed. -/
theorem makedirs_result_contains (dirs : List String) :
    (if dirs.contains "assets/icons" then dirs
      else "assets/icons" :: dirs).contains "assets/icons" = true := by
  by_cases hc : "assets/icons" ∈ dirs <;> simp [hc]

/-- C5: all output files live in the single fixed directory assets/icons;
the creation step succeeds (returns ok) whatever the prior directory set, it
runs before the branch so the directory is present on both paths, and every
output path is assets/icons/ followed by a file name. -/
theorem c5_output_directory (dirs : List String) (fault : Option PyError)
    (d : List String) (out : ScriptOutput)
    (h : run_script dirs fault = Except.ok (d, out)) :
    (∃ dirs2, makedirs_exist_ok dirs "assets/icons" = Except.ok dirs2 ∧
      dirs2.contains "assets/icons" = true) ∧
    d.contains "assets/icons" = true ∧
    ∃ tails : List String,
      outputNames out = tails.map (fun t => "assets/icons/" ++ t) := by
  refine ⟨⟨_, rfl, makedirs_result_contains dirs⟩, ?_, ?_⟩
  · rcases fault with _ | f
    · simp only [run_script, makedirs_exist_ok, Except.ok.injEq, Prod.mk.injEq] at h
      obtain ⟨hd, -⟩ := h
      rw [← hd]
      exact makedirs_result_contains dirs
    · rcases f with _ | msg
      · simp only [run_script, makedirs_exist_ok, Except.ok.injEq, Prod.mk.injEq] at h
        obtain ⟨hd, -⟩ := h
        rw [← hd]
        exact makedirs_result_contains dirs
      · simp only [run_script, makedirs_exist_ok] at h
        exact Except.noConfusion h
  · rcases fault with _ | f
    · simp only [run_script, makedirs_exist_ok, Except.ok.injEq, Prod.mk.injEq] at h
      obtain ⟨-, hout⟩ := h
      subst hout
      exact ⟨["icon-192x192.png", "icon-512x512.png", "icon-maskable-192x192.png",
        "icon-maskable-512x512.png"], rfl⟩
    · rcases f with _ | msg
      · simp only [run_script, makedirs_exist_ok, Except.ok.injEq, Prod.mk.injEq] at h
        obtain ⟨-, hout⟩ := h
        subst hout
        exact ⟨["icon-192x192.svg", "icon-512x512.svg", "icon-maskable-192x192.svg",
          "icon-maskable-512x512.svg"], rfl⟩
      · simp only [run_script, makedirs_exist_ok] at h
        exact Except.noConfusion h

/-- Witness for C5: the faultless run on an empty filesystem. -/
theorem c5_output_directory_witness :
    (∃ dirs2, makedirs_exist_ok [] "assets/icons" = Except.ok dirs2 ∧
      dirs2.contains "assets/icons" = true) ∧
    (["assets/icons"] : List String).contains "assets/icons" = true ∧
    ∃ tails : List String,
      outputNames (ScriptOutput.raster raster_files) =
        tails.map (fun t => "assets/icons/" ++ t) :=
  c5_output_directory [] none ["assets/icons"] (ScriptOutput.raster raster_files) rfl

/-- C6 counterexample: at the positive size S = 4 the maskable padding
int(4*0.2) = 0 is not strictly greater than the standard padding
int(4*0.1) = 0, refuting the claim as stated for every positive S. -/
theorem c6_padding_counterexample :
    ¬ ((book_geometry 4 true).padding > (book_geometry 4 false).padding) := by
  decide

/-- C6 (amended): for every size S ≥ 5 the maskable padding int(S*0.2) is
strictly greater than the standard padding int(S*0.1); below 5 both vanish,
so the variants coincide there. -/
theorem c6_extra_padding (S : Int) (h : 5 ≤ S) :
    (book_geometry S true).padding > (book_geometry S false).padding := by
  have hp : (book_geometry S true).padding = (S * 2).tdiv 10 := rfl
  have hq : (book_geometry S false).padding = S.tdiv 10 := rfl
  have h1 : S.tdiv 10 = S / 10 := Int.tdiv_eq_ediv (by omega) (by omega)
  have h2 : (S * 2).tdiv 10 = S * 2 / 10 := Int.tdiv_eq_ediv (by omega) (by omega)
  rw [hp, hq, h1, h2]
  omega

/-- Witness for the amended C6 at S = 192. -/
theorem c6_extra_padding_witness :
    (5 : Int) ≤ 192 ∧
      (book_geometry 192 true).padding > (book_geometry 192 false).padding :=
  ⟨by decide, c6_extra_padding 192 (by decide)⟩

/-- C7: execution always runs to completion: both icon constructors are
total functions, the only loop performs at most its three iterations, and
the whole script run yields a value on both the raster and the fallback
path. -/
theorem c7_termination (S : Int) (m : Bool) (_hS : 0 < S) :
    (∃ img, create_book_icon S m = img) ∧
    (∃ mk, create_svg_icon S m = mk) ∧
    (page_lines S m).length ≤ 3 ∧
    (∀ dirs : List String, ∃ r, run_script dirs none = Except.ok r) ∧
    (∀ dirs : List String, ∃ r,
      run_script dirs (some PyError.importError) = Except.ok r) := by
  refine ⟨⟨_, rfl⟩, ⟨_, rfl⟩, ?_, fun dirs => ⟨_, rfl⟩, fun dirs => ⟨_, rfl⟩⟩
  have hlen : (page_lines S m).length ≤ (List.range 3).length := by
    unfold page_lines
    exact List.length_filterMap_le _ _
  simpa using hlen

/-- Witness for C7 at S = 192, maskable. -/
theorem c7_termination_witness :
    (∃ img, create_book_icon 192 true = img) ∧
    (∃ mk, create_svg_icon 192 true = mk) ∧
    (page_lines 192 true).length ≤ 3 ∧
    (∀ dirs : List String, ∃ r, run_script dirs none = Except.ok r) ∧
    (∀ dirs : List String, ∃ r,
      run_script dirs (some PyError.importError) = Except.ok r) :=
  c7_termination 192 true (by decide)

/-- A filterMap over range 3 whose function succeeds on 0, 1 and 2 keeps all
three elements. -/
theorem filterMap_range3_length {α : Type} (f : Nat → Option α)
    (h0 : (f 0).isSome = true) (h1 : (f 1).isSome = true)
    (h2 : (f 2).isSome = true) :
    (List.filterMap f (List.range 3)).length = 3 := by
  obtain ⟨a, ha⟩ := Option.isSome_iff_exists.mp h0
  obtain ⟨b, hb⟩ := Option.isSome_iff_exists.mp h1
  obtain ⟨c, hc⟩ := Option.isSome_iff_exists.mp h2
  rw [show List.range 3 = [0, 1, 2] from rfl]
  simp [List.filterMap_cons, ha, hb, hc]

/-- C10: whenever book_height is positive the guard of the page-line loop
holds on all three iterations, so the skip branch is unreachable and exactly
three page lines are drawn. -/
theorem c10_three_page_lines (S : Int) (m : Bool)
    (h : 0 < (book_geometry S m).book_height) :
    (page_lines S m).length = 3 := by
  have hls : line_spacing S m = (book_geometry S m).book_height / 10 := by
    unfold line_spacing
    exact Int.tdiv_eq_ediv (by omega) (by omega)
  unfold page_lines
  apply filterMap_range3_length
  all_goals
    simp only []
    split
    · rfl
    · rename_i hcond
      exfalso
      rw [hls] at hcond
      omega

/-- Witness for C10 at S = 192, non-maskable (book_height = 200 > 0). -/
theorem c10_three_page_lines_witness :
    0 < (book_geometry 192 false).book_height ∧
      (page_lines 192 false).length = 3 :=
  ⟨by decide, c10_three_page_lines 192 false (by decide)⟩

end GenerateIcons
